import Mathlib

/-!
# Verification of the drift detection engine (`src/drift_detector.py`)

Shallow embedding of the `DriftDetector` class.  Python floats are embedded
as exact rationals (`ℚ`); the non-finite float values that arise when a
zero "expected" count reaches the chi-square computation are represented
explicitly by the `FVal` type (`fin q`, `inf`, `nan`) with float-style
propagation (`nan` absorbs, `inf` dominates finite values, comparisons
with `nan` or `inf` on the left are false).

The statistical library (scipy) is external to the repository.  Its two
calls are embedded as follows:
* `chisquare` is embedded concretely from its documented contract: it
  rejects observed/expected frequency lists whose sums disagree (a
  `ValueError`), and otherwise computes the statistic
  `Σ (obs - exp)² / exp`; the transcendental survival function that turns
  the statistic into a p-value is a parameter (`Stats.chi2_sf`).
* `ks_2samp` rejects empty samples (a `ValueError`, embedded in
  `textOutcome` where the emptiness is visible); its numeric output is a
  parameter (`Stats.ks_2samp`).

A pandas `DataFrame` is embedded as its two columns of interest, each
present or absent (absence models the `KeyError` on column access).
Mutation of `self` is embedded by explicit state passing: each method
returns the updated `DriftDetector` state together with its result, and a
raised exception is an `Except.error` result (the state component still
carries any writes that happened before the raise, as in Python).
-/

/-- A float value: finite rational, positive infinity, or NaN. -/
inductive FVal where
  | fin (q : ℚ)
  | inf
  | nan
deriving DecidableEq, Repr

/-- Float addition on `FVal`: `nan` absorbs everything, `inf` dominates
finite values. -/
def FVal.add : FVal → FVal → FVal
  | .nan, _ => .nan
  | _, .nan => .nan
  | .inf, _ => .inf
  | _, .inf => .inf
  | .fin a, .fin b => .fin (a + b)

/-- Float comparison `v < t` with a finite rational threshold, as a Bool:
`nan < t` and `inf < t` are both false (Python `bool(nan < t)` is
`False`). -/
def FVal.flt : FVal → ℚ → Bool
  | .fin q, t => decide (q < t)
  | .inf, _ => false
  | .nan, _ => false

/-- Whether a float value is finite. -/
def FVal.isFin : FVal → Bool
  | .fin _ => true
  | .inf => false
  | .nan => false

/-- One cell of the chi-square statistic, `(obs - exp)² / exp`, with float
division semantics when the expected count is zero: `0/0 = nan`,
`positive/0 = inf`. -/
def chiTerm (o e : ℕ) : FVal :=
  if e = 0 then (if o = 0 then .nan else .inf) else .fin (((o : ℚ) - (e : ℚ)) ^ 2 / (e : ℚ))

/-- The external statistical library's transcendental parts: the chi-square
survival function (statistic, degrees of freedom ↦ p-value) and the
two-sample Kolmogorov-Smirnov test on two non-empty samples
(↦ (statistic, p-value)). -/
structure Stats where
  chi2_sf : ℚ → ℕ → ℚ
  ks_2samp : List ℕ → List ℕ → ℚ × ℚ

/-- Exceptions the Python code can raise while checking drift: `KeyError`
on a missing column, `ValueError` from the statistical library. -/
inductive DriftError where
  | keyError (col : String)
  | valueError (msg : String)
deriving DecidableEq, Repr

/-- `scipy.stats.chisquare(f_obs, f_exp)`, embedded from its documented
contract: the sums of observed and expected frequencies must agree
(otherwise `ValueError`), the shapes must match, the statistic is
`Σ (obs - exp)² / exp` with float semantics for zero expected cells, and
the p-value is the chi-square survival function of the statistic at
`len - 1` degrees of freedom (`sf(inf) = 0`, `sf(nan) = nan`).
`chiStat` is the statistic `Σ (obs - exp)² / exp` with float addition. -/
def chiStat (f_obs f_exp : List ℕ) : FVal :=
  ((f_obs.zip f_exp).map (fun p => chiTerm p.1 p.2)).foldl FVal.add (.fin 0)

/-- Turn a chi-square statistic into a p-value through the library's
survival function: `sf(inf) = 0`, `sf(nan) = nan`. -/
def chiPValue (S : Stats) (stat : FVal) (df : ℕ) : FVal :=
  match stat with
  | .fin q => .fin (S.chi2_sf q df)
  | .inf => .fin 0
  | .nan => .nan

def chisquare (S : Stats) (f_obs f_exp : List ℕ) : Except DriftError (FVal × FVal) :=
  if f_obs.sum ≠ f_exp.sum then
    .error (.valueError "the sum of the observed frequencies must agree with the sum of the expected frequencies")
  else if f_obs.length ≠ f_exp.length then
    .error (.valueError "shape mismatch between observed and expected frequencies")
  else
    .ok (chiStat f_obs f_exp, chiPValue S (chiStat f_obs f_exp) (f_obs.length - 1))

/-- Insert an integer into a sorted duplicate-free list, keeping it sorted
and duplicate-free. -/
def insertSorted (x : ℤ) : List ℤ → List ℤ
  | [] => [x]
  | y :: ys => if x < y then x :: y :: ys else if x = y then y :: ys else y :: insertSorted x ys

/-- The sorted key set of the label distribution a record set produces:
the labels occurring in the data together with the fixed domain
`{0, 1, 2}` (the zero-fill loop of `detect_label_drift`), sorted
(`sort_index`). -/
def labelKeys (rs : List ℤ) : List ℤ := (rs ++ [0, 1, 2]).foldr insertSorted []

/-- The label distribution `value_counts` + zero-fill + `sort_index`
builds: each key of `labelKeys` paired with its occurrence count in the
data (0 for the zero-filled absent domain values). -/
def labelDistribution (rs : List ℤ) : List (ℤ × ℕ) :=
  (labelKeys rs).map (fun k => (k, rs.count k))

/-- A loaded dataset: the two columns the detector reads, each present or
absent (`none` models a missing column, whose access raises
`KeyError`). -/
structure DataFrame where
  sentiment : Option (List ℤ)
  review : Option (List String)
deriving DecidableEq, Repr

/-- The value stored in `drift_metrics['label_drift']`. -/
structure LabelDriftResult where
  chi2_statistic : FVal
  p_value : FVal
  drift_detected : Bool
  old_distribution : List (ℤ × ℕ)
  new_distribution : List (ℤ × ℕ)
deriving DecidableEq, Repr

/-- The value stored in `drift_metrics['text_length_drift']`. -/
structure TextLengthDriftResult where
  ks_statistic : ℚ
  p_value : ℚ
  drift_detected : Bool
  old_mean_length : ℚ
  new_mean_length : ℚ
deriving DecidableEq, Repr

/-- The `DriftDetector` instance state: the configured threshold, the
`drift_detected` attribute, and the `drift_metrics` dictionary (its
possible keys become optional fields). -/
structure DriftDetector where
  threshold : ℚ
  drift_detected : Bool
  label_drift : Option LabelDriftResult
  text_length_drift : Option TextLengthDriftResult
  overall_drift : Option Bool
  timestamp : Option String
deriving DecidableEq, Repr

/-- `DriftDetector.__init__`: stores the threshold (Python default 0.05)
and starts with `drift_detected = False` and an empty `drift_metrics`
dictionary.  The constructor performs no validation. -/
def DriftDetector.init (threshold : ℚ) : DriftDetector :=
  { threshold := threshold
    drift_detected := false
    label_drift := none
    text_length_drift := none
    overall_drift := none
    timestamp := none }

/-- The pure computation of `detect_label_drift`: read the `sentiment`
columns (KeyError if absent, old data accessed first), build both
zero-filled sorted distributions, run the chi-square test with the new
distribution as observed and the old as expected, and produce the
`label_drift` entry together with the returned boolean. -/
def labelOutcome (S : Stats) (threshold : ℚ) (old_data new_data : DataFrame) :
    Except DriftError LabelDriftResult :=
  match old_data.sentiment with
  | none => .error (.keyError "sentiment")
  | some os =>
    match new_data.sentiment with
    | none => .error (.keyError "sentiment")
    | some ns =>
      let old_dist := labelDistribution os
      let new_dist := labelDistribution ns
      match chisquare S (new_dist.map (fun kv => kv.2)) (old_dist.map (fun kv => kv.2)) with
      | .error e => .error e
      | .ok (chi2, p_value) =>
        .ok { chi2_statistic := chi2
              p_value := p_value
              drift_detected := FVal.flt p_value threshold
              old_distribution := old_dist
              new_distribution := new_dist }

/-- `DriftDetector.detect_label_drift`: on success stores the result under
`drift_metrics['label_drift']` and returns the drift boolean (the same
value stored in the result); a failure (raised exception) leaves the
state unchanged, because the dictionary write happens only after the
chi-square call returns. -/
def DriftDetector.detect_label_drift (S : Stats) (d : DriftDetector)
    (old_data new_data : DataFrame) : DriftDetector × Except DriftError Bool :=
  match labelOutcome S d.threshold old_data new_data with
  | .error e => (d, .error e)
  | .ok r => ({ d with label_drift := some r }, .ok r.drift_detected)

/-- The pure computation of `detect_text_length_drift`: read the `review`
columns (KeyError if absent, old data accessed first), derive the text
lengths, run the KS test (which rejects empty samples with a
`ValueError`), and produce the `text_length_drift` entry together with
the returned boolean. -/
def textOutcome (S : Stats) (threshold : ℚ) (old_data new_data : DataFrame) :
    Except DriftError TextLengthDriftResult :=
  match old_data.review with
  | none => .error (.keyError "review")
  | some orv =>
    match new_data.review with
    | none => .error (.keyError "review")
    | some nrv =>
      let old_lengths := orv.map (fun s => s.length)
      let new_lengths := nrv.map (fun s => s.length)
      if old_lengths.isEmpty || new_lengths.isEmpty then
        .error (.valueError "Data passed to ks_2samp must not be empty")
      else
        let res := S.ks_2samp old_lengths new_lengths
        .ok { ks_statistic := res.1
              p_value := res.2
              drift_detected := decide (res.2 < threshold)
              old_mean_length := ((old_lengths.sum : ℚ)) / (old_lengths.length : ℚ)
              new_mean_length := ((new_lengths.sum : ℚ)) / (new_lengths.length : ℚ) }

/-- `DriftDetector.detect_text_length_drift`: on success stores the result
under `drift_metrics['text_length_drift']` and returns the drift boolean
(the same value stored in the result); a failure leaves the state
unchanged. -/
def DriftDetector.detect_text_length_drift (S : Stats) (d : DriftDetector)
    (old_data new_data : DataFrame) : DriftDetector × Except DriftError Bool :=
  match textOutcome S d.threshold old_data new_data with
  | .error e => (d, .error e)
  | .ok r => ({ d with text_length_drift := some r }, .ok r.drift_detected)

/-- `DriftDetector.check_drift`: run the label test, then the text-length
test, aggregate with logical OR, store `overall_drift` and the timestamp
(an opaque input here), and return the overall boolean.  An exception in
either test propagates, keeping whatever state was already written. -/
def DriftDetector.check_drift (S : Stats) (d : DriftDetector)
    (old_data new_data : DataFrame) (ts : String) : DriftDetector × Except DriftError Bool :=
  match d.detect_label_drift S old_data new_data with
  | (d1, .error e) => (d1, .error e)
  | (d1, .ok label_drift) =>
    match d1.detect_text_length_drift S old_data new_data with
    | (d2, .error e) => (d2, .error e)
    | (d2, .ok text_drift) =>
      let overall := label_drift || text_drift
      ({ d2 with
          drift_detected := overall
          overall_drift := some overall
          timestamp := some ts }, .ok overall)

/-- A concrete instance of the statistical library used to witness the
theorems: the survival function is the strictly decreasing map
`q ↦ 1 / (1 + max q 0)` (value 1 at 0, values in `(0, 1]`), and the KS
test reports p-value 1 on identical samples and 1/100 otherwise. -/
def statsModel : Stats where
  chi2_sf := fun q _ => 1 / (1 + max q 0)
  ks_2samp := fun xs ys => (if xs = ys then 0 else 1 / 2, if xs = ys then 1 else 1 / 100)

/-! ## Supporting lemmas -/

theorem FVal.add_isFin (a b : FVal) : (FVal.add a b).isFin = (a.isFin && b.isFin) := by
  cases a <;> cases b <;> rfl

theorem FVal.isFin_iff (v : FVal) : v.isFin = true ↔ ∃ q, v = .fin q := by
  cases v <;> simp [FVal.isFin]

theorem foldl_add_isFin (l : List FVal) (a : FVal) :
    (l.foldl FVal.add a).isFin = (a.isFin && l.all FVal.isFin) := by
  induction l generalizing a with
  | nil => simp
  | cons x xs ih => simp [List.foldl_cons, ih, FVal.add_isFin, Bool.and_assoc]

theorem foldl_add_zero (l : List FVal) (h : ∀ x ∈ l, x = .fin 0) :
    l.foldl FVal.add (.fin 0) = .fin 0 := by
  induction l with
  | nil => rfl
  | cons x xs ih =>
    have hx : x = .fin 0 := h x (List.mem_cons_self x xs)
    rw [List.foldl_cons, hx]
    have hz : FVal.add (.fin 0) (.fin 0) = .fin 0 := by simp [FVal.add]
    rw [hz]
    exact ih fun y hy => h y (List.mem_cons_of_mem x hy)

theorem chiTerm_self (c : ℕ) (hc : c ≠ 0) : chiTerm c c = .fin 0 := by
  simp [chiTerm, hc]

theorem chiTerm_isFin (o e : ℕ) (he : e ≠ 0) : (chiTerm o e).isFin = true := by
  simp [chiTerm, he, FVal.isFin]

theorem chiTerm_zero_isFin (o : ℕ) : (chiTerm o 0).isFin = false := by
  by_cases ho : o = 0 <;> simp [chiTerm, ho, FVal.isFin]

theorem mem_zip_self {α : Type} (l : List α) (p : α × α) (hp : p ∈ l.zip l) : p.1 = p.2 := by
  induction l with
  | nil => simp [List.zip] at hp
  | cons a as ih =>
    rcases List.mem_cons.mp hp with h | h
    · rw [h]
    · exact ih h

theorem zip_mem_of_right {α β : Type} :
    ∀ (o : List α) (e : List β) (x : β), o.length = e.length → x ∈ e → ∃ a, (a, x) ∈ o.zip e
  | _, [], x, _, hx => absurd hx (List.not_mem_nil x)
  | [], b :: bs, x, hl, _ => absurd hl (by simp)
  | a :: as, b :: bs, x, hl, hx => by
    rcases List.mem_cons.mp hx with h | h
    · exact ⟨a, by simp [h]⟩
    · obtain ⟨a', ha'⟩ := zip_mem_of_right as bs x (by simpa using hl) h
      exact ⟨a', List.mem_cons_of_mem _ ha'⟩

theorem mem_insertSorted (x a : ℤ) (l : List ℤ) :
    a ∈ insertSorted x l ↔ a = x ∨ a ∈ l := by
  induction l with
  | nil => simp [insertSorted]
  | cons y ys ih =>
    simp only [insertSorted]
    split
    · simp [List.mem_cons]
      try tauto
    · split
      · next hxy =>
        subst hxy
        simp [List.mem_cons]
        try tauto
      · simp [List.mem_cons, ih]
        try tauto

theorem pairwise_insertSorted (x : ℤ) (l : List ℤ) (h : l.Pairwise (· < ·)) :
    (insertSorted x l).Pairwise (· < ·) := by
  induction l with
  | nil => simp [insertSorted]
  | cons y ys ih =>
    rw [List.pairwise_cons] at h
    obtain ⟨hy, hys⟩ := h
    simp only [insertSorted]
    split
    · next hxy =>
      refine List.pairwise_cons.mpr ⟨fun z hz => ?_, List.pairwise_cons.mpr ⟨hy, hys⟩⟩
      rcases List.mem_cons.mp hz with rfl | hz'
      · exact hxy
      · exact lt_trans hxy (hy z hz')
    · split
      · exact List.pairwise_cons.mpr ⟨hy, hys⟩
      · next h1 h2 =>
        have hyx : y < x := by omega
        refine List.pairwise_cons.mpr ⟨fun z hz => ?_, ih hys⟩
        rcases (mem_insertSorted x z ys).mp hz with rfl | hz'
        · exact hyx
        · exact hy z hz'

theorem mem_foldr_insertSorted (l acc : List ℤ) (a : ℤ) :
    a ∈ l.foldr insertSorted acc ↔ a ∈ l ∨ a ∈ acc := by
  induction l with
  | nil => simp
  | cons x xs ih =>
    simp [List.foldr_cons, mem_insertSorted, ih, List.mem_cons]
    tauto

theorem mem_labelKeys (rs : List ℤ) (a : ℤ) :
    a ∈ labelKeys rs ↔ a ∈ rs ∨ a = 0 ∨ a = 1 ∨ a = 2 := by
  rw [labelKeys, mem_foldr_insertSorted]
  simp

theorem pairwise_labelKeys (rs : List ℤ) : (labelKeys rs).Pairwise (· < ·) := by
  rw [labelKeys]
  induction (rs ++ [0, 1, 2]) with
  | nil => simp
  | cons x xs ih => exact pairwise_insertSorted x _ ih

theorem nodup_labelKeys (rs : List ℤ) : (labelKeys rs).Nodup :=
  (pairwise_labelKeys rs).imp ne_of_lt

theorem sum_map_ite_one (keys : List ℤ) (a : ℤ) (hnd : keys.Nodup) (ha : a ∈ keys) :
    (keys.map (fun k => if a = k then 1 else 0)).sum = 1 := by
  induction keys with
  | nil => exact absurd ha (List.not_mem_nil a)
  | cons y ys ih =>
    rw [List.nodup_cons] at hnd
    obtain ⟨hy, hys⟩ := hnd
    rcases List.mem_cons.mp ha with rfl | ha'
    · have hz : (ys.map (fun k => if a = k then 1 else 0)).sum = 0 := by
        apply List.sum_eq_zero
        intro x hx
        obtain ⟨k, hk, hkx⟩ := List.mem_map.mp hx
        have hak : a ≠ k := fun hka => hy (hka ▸ hk)
        simp [hak] at hkx
        omega
      simp [hz]
    · have hya : a ≠ y := fun hya => hy (hya ▸ ha')
      simp [hya, ih hys ha']

theorem sum_map_add_nat (keys : List ℤ) (f g : ℤ → ℕ) :
    (keys.map (fun k => f k + g k)).sum = (keys.map f).sum + (keys.map g).sum := by
  induction keys with
  | nil => rfl
  | cons y ys ih => simp [ih]; omega

theorem sum_count_keys (rs : List ℤ) (keys : List ℤ) (hnd : keys.Nodup)
    (hsub : ∀ a ∈ rs, a ∈ keys) : (keys.map (fun k => rs.count k)).sum = rs.length := by
  induction rs with
  | nil => simp
  | cons a rs ih =>
    have h1 : keys.map (fun k => (a :: rs).count k)
        = keys.map (fun k => rs.count k + if a = k then 1 else 0) := by
      apply List.map_congr_left
      intro k _
      rw [List.count_cons]
      simp [beq_iff_eq]
    rw [h1, sum_map_add_nat, ih (fun x hx => hsub x (List.mem_cons_of_mem a hx)),
      sum_map_ite_one keys a hnd (hsub a (List.mem_cons_self a rs))]
    simp

theorem map_fst_labelDistribution (rs : List ℤ) :
    (labelDistribution rs).map Prod.fst = labelKeys rs := by
  rw [labelDistribution, List.map_map]
  exact List.map_id (labelKeys rs)

theorem map_snd_labelDistribution (rs : List ℤ) :
    (labelDistribution rs).map (fun kv => kv.2) = (labelKeys rs).map (fun k => rs.count k) := by
  simp [labelDistribution, List.map_map, Function.comp]

theorem sum_labelDistribution (rs : List ℤ) :
    ((labelDistribution rs).map (fun kv => kv.2)).sum = rs.length := by
  rw [map_snd_labelDistribution]
  exact sum_count_keys rs _ (nodup_labelKeys rs)
    (fun a ha => (mem_labelKeys rs a).mpr (Or.inl ha))

theorem mem_labelDistribution (rs : List ℤ) (k : ℤ) (hk : k ∈ labelKeys rs) :
    (k, rs.count k) ∈ labelDistribution rs :=
  List.mem_map.mpr ⟨k, hk, rfl⟩

theorem length_labelDistribution (rs : List ℤ) :
    (labelDistribution rs).length = (labelKeys rs).length := by
  simp [labelDistribution]

theorem chisquare_ok (S : Stats) (f_obs f_exp : List ℕ)
    (hsum : f_obs.sum = f_exp.sum) (hlen : f_obs.length = f_exp.length) :
    chisquare S f_obs f_exp =
      .ok (chiStat f_obs f_exp, chiPValue S (chiStat f_obs f_exp) (f_obs.length - 1)) := by
  simp [chisquare, hsum, hlen]

theorem chisquare_sum_ne (S : Stats) (f_obs f_exp : List ℕ) (h : f_obs.sum ≠ f_exp.sum) :
    chisquare S f_obs f_exp = .error (.valueError
      "the sum of the observed frequencies must agree with the sum of the expected frequencies") := by
  simp [chisquare, h]

theorem labelOutcome_ok (S : Stats) (t : ℚ) (old_data new_data : DataFrame)
    (os ns : List ℤ) (hos : old_data.sentiment = some os) (hns : new_data.sentiment = some ns)
    (c p : FVal)
    (hch : chisquare S ((labelDistribution ns).map (fun kv => kv.2))
        ((labelDistribution os).map (fun kv => kv.2)) = .ok (c, p)) :
    labelOutcome S t old_data new_data =
      .ok { chi2_statistic := c
            p_value := p
            drift_detected := FVal.flt p t
            old_distribution := labelDistribution os
            new_distribution := labelDistribution ns } := by
  simp [labelOutcome, hos, hns, hch]

theorem labelOutcome_error_of_chisquare (S : Stats) (t : ℚ) (old_data new_data : DataFrame)
    (os ns : List ℤ) (hos : old_data.sentiment = some os) (hns : new_data.sentiment = some ns)
    (e : DriftError)
    (hch : chisquare S ((labelDistribution ns).map (fun kv => kv.2))
        ((labelDistribution os).map (fun kv => kv.2)) = .error e) :
    labelOutcome S t old_data new_data = .error e := by
  simp [labelOutcome, hos, hns, hch]

theorem textOutcome_ok (S : Stats) (t : ℚ) (old_data new_data : DataFrame)
    (orv nrv : List String) (hor : old_data.review = some orv) (hnr : new_data.review = some nrv)
    (hne : orv ≠ []) (hne' : nrv ≠ []) :
    textOutcome S t old_data new_data =
      .ok { ks_statistic := (S.ks_2samp (orv.map (fun s => s.length)) (nrv.map (fun s => s.length))).1
            p_value := (S.ks_2samp (orv.map (fun s => s.length)) (nrv.map (fun s => s.length))).2
            drift_detected := decide
              ((S.ks_2samp (orv.map (fun s => s.length)) (nrv.map (fun s => s.length))).2 < t)
            old_mean_length :=
              (((orv.map (fun s => s.length)).sum : ℚ)) / ((orv.map (fun s => s.length)).length : ℚ)
            new_mean_length :=
              (((nrv.map (fun s => s.length)).sum : ℚ)) / ((nrv.map (fun s => s.length)).length : ℚ) } := by
  have h1 : (orv.map (fun s => s.length)).isEmpty = false := by
    cases orv with
    | nil => exact absurd rfl hne
    | cons a as => rfl
  have h2 : (nrv.map (fun s => s.length)).isEmpty = false := by
    cases nrv with
    | nil => exact absurd rfl hne'
    | cons a as => rfl
  simp [textOutcome, hor, hnr, h1, h2]
  exact ⟨rfl, rfl⟩

theorem detect_label_ok (S : Stats) (d : DriftDetector) (old_data new_data : DataFrame)
    (r : LabelDriftResult) (h : labelOutcome S d.threshold old_data new_data = .ok r) :
    d.detect_label_drift S old_data new_data =
      ({ d with label_drift := some r }, .ok r.drift_detected) := by
  simp [DriftDetector.detect_label_drift, h]

theorem detect_label_error (S : Stats) (d : DriftDetector) (old_data new_data : DataFrame)
    (e : DriftError) (h : labelOutcome S d.threshold old_data new_data = .error e) :
    d.detect_label_drift S old_data new_data = (d, .error e) := by
  simp [DriftDetector.detect_label_drift, h]

theorem detect_text_ok (S : Stats) (d : DriftDetector) (old_data new_data : DataFrame)
    (r : TextLengthDriftResult) (h : textOutcome S d.threshold old_data new_data = .ok r) :
    d.detect_text_length_drift S old_data new_data =
      ({ d with text_length_drift := some r }, .ok r.drift_detected) := by
  simp [DriftDetector.detect_text_length_drift, h]

theorem detect_text_error (S : Stats) (d : DriftDetector) (old_data new_data : DataFrame)
    (e : DriftError) (h : textOutcome S d.threshold old_data new_data = .error e) :
    d.detect_text_length_drift S old_data new_data = (d, .error e) := by
  simp [DriftDetector.detect_text_length_drift, h]

theorem statsModel_sf_nonneg (q : ℚ) (n : ℕ) : 0 ≤ statsModel.chi2_sf q n := by
  simp only [statsModel]
  positivity

theorem statsModel_sf_le_one (q : ℚ) (n : ℕ) : statsModel.chi2_sf q n ≤ 1 := by
  simp only [statsModel]
  rw [div_le_one (by positivity)]
  have h := le_max_right q (0 : ℚ)
  linarith

theorem statsModel_sf_zero (n : ℕ) : statsModel.chi2_sf 0 n = 1 := by
  simp [statsModel]

theorem statsModel_ks_unit (xs ys : List ℕ) :
    0 ≤ (statsModel.ks_2samp xs ys).2 ∧ (statsModel.ks_2samp xs ys).2 ≤ 1 := by
  simp only [statsModel]
  split <;> norm_num

/-! ## Concrete datasets used as witnesses and counterexamples -/

def dfA : DataFrame := ⟨some [0, 0, 1, 2], some ["a", "a", "a", "a"]⟩

def dfB : DataFrame := ⟨some [0, 1, 1, 2], some ["a", "a", "a", "a"]⟩

def dfC : DataFrame := ⟨some [0, 0, 1, 2], some ["bb", "a", "a", "a"]⟩

def dfD : DataFrame := ⟨some [0, 1, 1, 2], some ["bb", "a", "a", "a"]⟩

def dfSentOnly : DataFrame := ⟨some [0, 1, 2], none⟩

def dfZeroOld : DataFrame := ⟨some [0, 1, 0, 1], some ["a", "a", "a", "a"]⟩

def dfZeroNew : DataFrame := ⟨some [0, 1, 2, 0], some ["a", "a", "a", "a"]⟩

def dfOne : DataFrame := ⟨some [0], some ["a"]⟩

def dfTwo : DataFrame := ⟨some [0, 1], some ["a", "a"]⟩

def dfExtraOld : DataFrame := ⟨some [0, 1, 2, 5], some ["a", "a", "a", "a"]⟩

def dfExtraNew : DataFrame := ⟨some [0, 1, 5, 5], some ["a", "a", "a", "a"]⟩

theorem length_str_a : ("a" : String).length = 1 := rfl

theorem length_str_bb : ("bb" : String).length = 2 := rfl

theorem check_drift_label_error (S : Stats) (d : DriftDetector) (old_data new_data : DataFrame)
    (ts : String) (e : DriftError) (hl : labelOutcome S d.threshold old_data new_data = .error e) :
    d.check_drift S old_data new_data ts = (d, .error e) := by
  have h1 := detect_label_error S d old_data new_data e hl
  simp [DriftDetector.check_drift, h1]

theorem check_drift_text_error (S : Stats) (d : DriftDetector) (old_data new_data : DataFrame)
    (ts : String) (rl : LabelDriftResult) (e : DriftError)
    (hl : labelOutcome S d.threshold old_data new_data = .ok rl)
    (ht : textOutcome S d.threshold old_data new_data = .error e) :
    d.check_drift S old_data new_data ts = ({ d with label_drift := some rl }, .error e) := by
  have h1 := detect_label_ok S d old_data new_data rl hl
  have h2 := detect_text_error S { d with label_drift := some rl } old_data new_data e ht
  simp [DriftDetector.check_drift, h1, h2]

theorem check_drift_ok_of (S : Stats) (d : DriftDetector) (old_data new_data : DataFrame)
    (ts : String) (rl : LabelDriftResult) (rt : TextLengthDriftResult)
    (hl : labelOutcome S d.threshold old_data new_data = .ok rl)
    (ht : textOutcome S d.threshold old_data new_data = .ok rt) :
    d.check_drift S old_data new_data ts =
      ({ d with
          label_drift := some rl
          text_length_drift := some rt
          drift_detected := rl.drift_detected || rt.drift_detected
          overall_drift := some (rl.drift_detected || rt.drift_detected)
          timestamp := some ts }, .ok (rl.drift_detected || rt.drift_detected)) := by
  have h1 := detect_label_ok S d old_data new_data rl hl
  have h2 := detect_text_ok S { d with label_drift := some rl } old_data new_data rt ht
  simp [DriftDetector.check_drift, h1, h2]

/-! ## The claims -/

/-- C7: for every record set, the distribution built by
`detect_label_drift` pairs each key with its occurrence count (so an
absent label has count 0), its keys include every value of the fixed
domain `{0, 1, 2}`, the keys are strictly sorted, and the counts sum to
the number of records. -/
theorem labelDistribution_invariants (rs : List ℤ) :
    labelDistribution rs = (labelKeys rs).map (fun k => (k, rs.count k)) ∧
    ((0 : ℤ) ∈ labelKeys rs ∧ (1 : ℤ) ∈ labelKeys rs ∧ (2 : ℤ) ∈ labelKeys rs) ∧
    (labelKeys rs).Pairwise (· < ·) ∧
    ((labelDistribution rs).map (fun kv => kv.2)).sum = rs.length := by
  refine ⟨rfl, ⟨?_, ?_, ?_⟩, pairwise_labelKeys rs, sum_labelDistribution rs⟩ <;>
    simp [mem_labelKeys]

/-- C5 (amended): the constructor performs no validation at all.  Any
threshold — in particular one outside `(0, 1)` — is accepted and stored,
and the resulting detector is usable (`check_drift` completes normally on
well-formed data).  No `ConfigurationError` exists in the code. -/
theorem init_stores_any_threshold (t : ℚ) :
    DriftDetector.init t =
      { threshold := t, drift_detected := false, label_drift := none,
        text_length_drift := none, overall_drift := none, timestamp := none } ∧
    ∃ b : Bool, ((DriftDetector.init t).check_drift statsModel dfA dfA "x").2 = Except.ok b := by
  refine ⟨rfl, ?_⟩
  have hch := chisquare_ok statsModel ((labelDistribution [0, 0, 1, 2]).map (fun kv => kv.2))
    ((labelDistribution [0, 0, 1, 2]).map (fun kv => kv.2)) rfl rfl
  have hl := labelOutcome_ok statsModel t dfA dfA [0, 0, 1, 2] [0, 0, 1, 2] rfl rfl _ _ hch
  have ht := textOutcome_ok statsModel t dfA dfA ["a", "a", "a", "a"] ["a", "a", "a", "a"]
    rfl rfl (by decide) (by decide)
  have hcd := check_drift_ok_of statsModel (DriftDetector.init t) dfA dfA "x" _ _ hl ht
  exact ⟨_, by rw [hcd]⟩

/-- C5 counterexample: constructing a detector with threshold 2 (outside
`(0, 1)`) raises nothing: the threshold is stored as given and
`check_drift` runs to completion on the resulting detector, so the
constructor does not fail for an invalid threshold. -/
theorem init_invalid_threshold_cex :
    (DriftDetector.init 2).threshold = 2 ∧
    ((DriftDetector.init 2).check_drift statsModel dfA dfA "t").2 = Except.ok true := by
  constructor
  · rfl
  · norm_num [DriftDetector.check_drift, DriftDetector.detect_label_drift,
      DriftDetector.detect_text_length_drift, labelOutcome, textOutcome, chisquare,
      chiStat, chiPValue, DriftDetector.init, dfA, labelDistribution, labelKeys,
      insertSorted, chiTerm, FVal.add, FVal.flt, statsModel, length_str_a]

/-- C9: `detect_label_drift` fails whenever the two record sets have
different sizes, because the chi-square routine rejects observed and
expected frequency lists with different sums, and the sums of the two
zero-filled distributions are exactly the record counts; `check_drift`
fails in the same way, with the state unchanged. -/
theorem unequal_sizes_label_test_fails (S : Stats) (d : DriftDetector)
    (old_data new_data : DataFrame) (os ns : List ℤ) (ts : String)
    (hos : old_data.sentiment = some os) (hns : new_data.sentiment = some ns)
    (hne : os.length ≠ ns.length) :
    d.detect_label_drift S old_data new_data = (d, .error (.valueError
      "the sum of the observed frequencies must agree with the sum of the expected frequencies")) ∧
    d.check_drift S old_data new_data ts = (d, .error (.valueError
      "the sum of the observed frequencies must agree with the sum of the expected frequencies")) := by
  have hsum : ((labelDistribution ns).map (fun kv => kv.2)).sum
      ≠ ((labelDistribution os).map (fun kv => kv.2)).sum := by
    rw [sum_labelDistribution, sum_labelDistribution]
    omega
  have hch := chisquare_sum_ne S _ _ hsum
  have hout := labelOutcome_error_of_chisquare S d.threshold old_data new_data os ns hos hns _ hch
  exact ⟨detect_label_error S d old_data new_data _ hout,
    check_drift_label_error S d old_data new_data ts _ hout⟩

/-- C9 witness: a one-record reference against a two-record candidate
makes the categorical test and the whole check fail. -/
theorem unequal_sizes_label_test_fails_witness :
    (DriftDetector.init (1 / 20)).detect_label_drift statsModel dfOne dfTwo
      = (DriftDetector.init (1 / 20), .error (.valueError
        "the sum of the observed frequencies must agree with the sum of the expected frequencies")) ∧
    (DriftDetector.init (1 / 20)).check_drift statsModel dfOne dfTwo "t"
      = (DriftDetector.init (1 / 20), .error (.valueError
        "the sum of the observed frequencies must agree with the sum of the expected frequencies")) :=
  unequal_sizes_label_test_fails statsModel (DriftDetector.init (1 / 20)) dfOne dfTwo
    [0] [0, 1] "t" rfl rfl (by decide)

/-- C10: a label outside the fixed domain `{0, 1, 2}` that occurs in both
record sets is not rejected by `detect_label_drift`: the test completes
normally and the label appears, with its positive occurrence count, as an
extra key of the reported old and new distributions (the domain check
only zero-fills missing values of `{0, 1, 2}`). -/
theorem extra_label_counted_and_reported (S : Stats) (d : DriftDetector)
    (old_data new_data : DataFrame) (os ns : List ℤ) (l : ℤ)
    (hos : old_data.sentiment = some os) (hns : new_data.sentiment = some ns)
    (_hl0 : l ≠ 0) (_hl1 : l ≠ 1) (_hl2 : l ≠ 2)
    (hlo : l ∈ os) (hln : l ∈ ns) (hlen : os.length = ns.length)
    (hkeys : labelKeys os = labelKeys ns) :
    ∃ r, d.detect_label_drift S old_data new_data
        = ({ d with label_drift := some r }, .ok r.drift_detected) ∧
      (l, os.count l) ∈ r.old_distribution ∧ (l, ns.count l) ∈ r.new_distribution ∧
      0 < os.count l ∧ 0 < ns.count l := by
  have hsum : ((labelDistribution ns).map (fun kv => kv.2)).sum
      = ((labelDistribution os).map (fun kv => kv.2)).sum := by
    rw [sum_labelDistribution, sum_labelDistribution, hlen]
  have hlens : ((labelDistribution ns).map (fun kv => kv.2)).length
      = ((labelDistribution os).map (fun kv => kv.2)).length := by
    simp [labelDistribution, hkeys]
  have hch := chisquare_ok S _ _ hsum hlens
  have hout := labelOutcome_ok S d.threshold old_data new_data os ns hos hns _ _ hch
  refine ⟨_, detect_label_ok S d old_data new_data _ hout, ?_, ?_, ?_, ?_⟩
  · exact mem_labelDistribution os l ((mem_labelKeys os l).mpr (Or.inl hlo))
  · exact mem_labelDistribution ns l ((mem_labelKeys ns l).mpr (Or.inl hln))
  · exact List.count_pos_iff.mpr hlo
  · exact List.count_pos_iff.mpr hln

/-- C10 witness: label 5 occurs in both data sets; the categorical test
succeeds and reports it as an extra key with its counts. -/
theorem extra_label_counted_and_reported_witness :
    ∃ r, (DriftDetector.init (1 / 20)).detect_label_drift statsModel dfExtraOld dfExtraNew
        = ({ DriftDetector.init (1 / 20) with label_drift := some r }, .ok r.drift_detected) ∧
      ((5 : ℤ), [(0 : ℤ), 1, 2, 5].count 5) ∈ r.old_distribution ∧
      ((5 : ℤ), [(0 : ℤ), 1, 5, 5].count 5) ∈ r.new_distribution ∧
      0 < [(0 : ℤ), 1, 2, 5].count 5 ∧ 0 < [(0 : ℤ), 1, 5, 5].count 5 :=
  extra_label_counted_and_reported statsModel (DriftDetector.init (1 / 20)) dfExtraOld dfExtraNew
    [0, 1, 2, 5] [0, 1, 5, 5] 5 rfl rfl (by decide) (by decide) (by decide)
    (by decide) (by decide) (by decide) (by decide)

/-- C4 (amended): the code follows neither policy named by the
specification.  A zero count in the reference (expected) distribution is
passed unchanged to the chi-square computation: no DataError is raised,
no epsilon is substituted, the zero cell is recorded as-is in the report,
and the statistic comes out non-finite (inf or NaN, by float
semantics). -/
theorem zero_expected_passed_to_chisquare (S : Stats) (d : DriftDetector)
    (old_data new_data : DataFrame) (os ns : List ℤ) (k : ℤ)
    (hos : old_data.sentiment = some os) (hns : new_data.sentiment = some ns)
    (hk : (k, 0) ∈ labelDistribution os)
    (hlen : os.length = ns.length) (hkeys : labelKeys os = labelKeys ns) :
    ∃ r, d.detect_label_drift S old_data new_data
        = ({ d with label_drift := some r }, .ok r.drift_detected) ∧
      (k, 0) ∈ r.old_distribution ∧ r.chi2_statistic.isFin = false := by
  have hsum : ((labelDistribution ns).map (fun kv => kv.2)).sum
      = ((labelDistribution os).map (fun kv => kv.2)).sum := by
    rw [sum_labelDistribution, sum_labelDistribution, hlen]
  have hlens : ((labelDistribution ns).map (fun kv => kv.2)).length
      = ((labelDistribution os).map (fun kv => kv.2)).length := by
    simp [labelDistribution, hkeys]
  have hch := chisquare_ok S _ _ hsum hlens
  have hout := labelOutcome_ok S d.threshold old_data new_data os ns hos hns _ _ hch
  refine ⟨_, detect_label_ok S d old_data new_data _ hout, hk, ?_⟩
  show (chiStat ((labelDistribution ns).map (fun kv => kv.2))
      ((labelDistribution os).map (fun kv => kv.2))).isFin = false
  have h0 : (0 : ℕ) ∈ (labelDistribution os).map (fun kv => kv.2) :=
    List.mem_map.mpr ⟨(k, 0), hk, rfl⟩
  obtain ⟨a, ha⟩ := zip_mem_of_right ((labelDistribution ns).map (fun kv => kv.2))
    ((labelDistribution os).map (fun kv => kv.2)) 0 hlens h0
  have hterm : chiTerm a 0 ∈ ((((labelDistribution ns).map (fun kv => kv.2)).zip
      ((labelDistribution os).map (fun kv => kv.2))).map (fun p => chiTerm p.1 p.2)) :=
    List.mem_map.mpr ⟨(a, 0), ha, rfl⟩
  rcases Bool.eq_false_or_eq_true (((((labelDistribution ns).map (fun kv => kv.2)).zip
      ((labelDistribution os).map (fun kv => kv.2))).map
      (fun p => chiTerm p.1 p.2)).all FVal.isFin) with hall | hall
  · exfalso
    have hfin := List.all_eq_true.mp hall _ hterm
    rw [chiTerm_zero_isFin] at hfin
    exact Bool.false_ne_true hfin
  · rw [chiStat, foldl_add_isFin, hall]
    rfl

/-- C4 counterexample: with reference labels `[0, 1, 0, 1]` (zero count
for category 2) and candidate labels `[0, 1, 2, 0]`, `detect_label_drift`
raises nothing and substitutes nothing: it returns normally with drift
detected, records the zero cell `(2, 0)` as-is, and the statistic is
infinite. -/
theorem zero_expected_no_dataerror_cex :
    ((DriftDetector.init (1 / 20)).detect_label_drift statsModel dfZeroOld dfZeroNew).2
      = Except.ok true ∧
    Option.map LabelDriftResult.chi2_statistic
      (((DriftDetector.init (1 / 20)).detect_label_drift statsModel dfZeroOld dfZeroNew).1.label_drift)
      = some FVal.inf ∧
    Option.map LabelDriftResult.old_distribution
      (((DriftDetector.init (1 / 20)).detect_label_drift statsModel dfZeroOld dfZeroNew).1.label_drift)
      = some [(0, 2), (1, 2), (2, 0)] := by
  refine ⟨?_, ?_, ?_⟩ <;>
    norm_num [DriftDetector.detect_label_drift, labelOutcome, chisquare, chiStat, chiPValue,
      DriftDetector.init, dfZeroOld, dfZeroNew, labelDistribution, labelKeys, insertSorted,
      chiTerm, FVal.add, FVal.flt, statsModel]

/-- C4 witness: the amended statement instantiated at the same input:
category 2 has count 0 in the reference, the test completes normally, the
zero cell is reported unchanged and the statistic is non-finite. -/
theorem zero_expected_passed_to_chisquare_witness :
    ∃ r, (DriftDetector.init (1 / 20)).detect_label_drift statsModel dfZeroOld dfZeroNew
        = ({ DriftDetector.init (1 / 20) with label_drift := some r }, .ok r.drift_detected) ∧
      ((2 : ℤ), (0 : ℕ)) ∈ r.old_distribution ∧ r.chi2_statistic.isFin = false :=
  zero_expected_passed_to_chisquare statsModel (DriftDetector.init (1 / 20)) dfZeroOld dfZeroNew
    [0, 1, 0, 1] [0, 1, 2, 0] 2 rfl rfl (by decide) (by decide) (by decide)

/-- C6 (amended): if the two record sets have identical label
distributions AND every category count in the reference is positive,
`detect_label_drift` computes statistic 0 and p-value 1 (when the
library's survival function maps 0 to 1) and reports no drift for any
threshold at most 1.  Without the positivity condition the claim fails:
identical distributions containing a zero cell produce a NaN statistic
and NaN p-value (see the counterexample), though drift is still not
flagged. -/
theorem identical_positive_distributions_no_drift (S : Stats) (d : DriftDetector)
    (old_data new_data : DataFrame) (os ns : List ℤ)
    (hos : old_data.sentiment = some os) (hns : new_data.sentiment = some ns)
    (hdist : labelDistribution os = labelDistribution ns)
    (hpos : ∀ kv ∈ labelDistribution os, kv.2 ≠ 0)
    (hsf : ∀ n, S.chi2_sf 0 n = 1) (ht : d.threshold ≤ 1) :
    d.detect_label_drift S old_data new_data =
      ({ d with label_drift := some {
            chi2_statistic := .fin 0
            p_value := .fin 1
            drift_detected := false
            old_distribution := labelDistribution os
            new_distribution := labelDistribution ns } }, .ok false) := by
  have hobs : (labelDistribution ns).map (fun kv => kv.2)
      = (labelDistribution os).map (fun kv => kv.2) := by rw [hdist]
  have hstat : chiStat ((labelDistribution ns).map (fun kv => kv.2))
      ((labelDistribution os).map (fun kv => kv.2)) = .fin 0 := by
    rw [hobs, chiStat]
    apply foldl_add_zero
    intro x hx
    obtain ⟨p, hp, hpx⟩ := List.mem_map.mp hx
    have hpp := mem_zip_self _ p hp
    have h2 := (List.of_mem_zip hp).2
    obtain ⟨kv, hkv, hkva⟩ := List.mem_map.mp h2
    subst hpx
    rw [hpp]
    exact chiTerm_self p.2 (hkva ▸ hpos kv hkv)
  have hch : chisquare S ((labelDistribution ns).map (fun kv => kv.2))
      ((labelDistribution os).map (fun kv => kv.2)) = .ok (.fin 0, .fin 1) := by
    rw [chisquare_ok S _ _ (by rw [hobs]) (by rw [hobs]), hstat]
    simp only [chiPValue]
    rw [hsf]
  have hout := labelOutcome_ok S d.threshold old_data new_data os ns hos hns _ _ hch
  have hflt : FVal.flt (.fin 1) d.threshold = false := by
    simp only [FVal.flt, decide_eq_false_iff_not]
    exact not_lt.mpr ht
  rw [hflt] at hout
  exact detect_label_ok S d old_data new_data _ hout

/-- C6 counterexample: a single-record data set compared against itself
has identical label distributions (`[(0,1), (1,0), (2,0)]` on both
sides), yet the statistic is NaN — not 0 — and the p-value is NaN — not
1.0 — because the zero cells contribute `0/0`; the returned boolean is
still false. -/
theorem identical_degenerate_distribution_cex :
    Option.map LabelDriftResult.chi2_statistic
      (((DriftDetector.init (1 / 20)).detect_label_drift statsModel dfOne dfOne).1.label_drift)
      = some FVal.nan ∧
    Option.map LabelDriftResult.p_value
      (((DriftDetector.init (1 / 20)).detect_label_drift statsModel dfOne dfOne).1.label_drift)
      = some FVal.nan ∧
    ((DriftDetector.init (1 / 20)).detect_label_drift statsModel dfOne dfOne).2
      = Except.ok false := by
  refine ⟨?_, ?_, ?_⟩ <;>
    norm_num [DriftDetector.detect_label_drift, labelOutcome, chisquare, chiStat, chiPValue,
      DriftDetector.init, dfOne, labelDistribution, labelKeys, insertSorted,
      chiTerm, FVal.add, FVal.flt, statsModel]

/-- C6 witness: the amended statement instantiated at a data set with all
three category counts positive, compared against itself: statistic 0,
p-value 1, no drift. -/
theorem identical_positive_distributions_no_drift_witness :
    (DriftDetector.init (1 / 20)).detect_label_drift statsModel dfB dfB =
      ({ DriftDetector.init (1 / 20) with label_drift := some {
            chi2_statistic := .fin 0
            p_value := .fin 1
            drift_detected := false
            old_distribution := labelDistribution [0, 1, 1, 2]
            new_distribution := labelDistribution [0, 1, 1, 2] } }, .ok false) :=
  identical_positive_distributions_no_drift statsModel (DriftDetector.init (1 / 20)) dfB dfB
    [0, 1, 1, 2] [0, 1, 1, 2] rfl rfl rfl (by decide) statsModel_sf_zero
    (by norm_num [DriftDetector.init])

/-- C2: for valid inputs — both columns present, non-empty review lists,
equal record counts, matching label key sets, and no zero count in the
reference distribution — and a statistical library whose p-values lie in
`[0, 1]` (scipy's contract), each test produces a p-value in `[0, 1]`,
sets `drift_detected` to `p_value < threshold`, and returns exactly the
boolean recorded in its report entry. -/
theorem detect_pvalues_in_unit (S : Stats) (d : DriftDetector)
    (old_data new_data : DataFrame) (os ns : List ℤ) (orv nrv : List String)
    (hos : old_data.sentiment = some os) (hns : new_data.sentiment = some ns)
    (hor : old_data.review = some orv) (hnr : new_data.review = some nrv)
    (hlen : os.length = ns.length) (hkeys : labelKeys os = labelKeys ns)
    (hpos : ∀ kv ∈ labelDistribution os, kv.2 ≠ 0)
    (hone : orv ≠ []) (htwo : nrv ≠ [])
    (hsf : ∀ q n, 0 ≤ S.chi2_sf q n ∧ S.chi2_sf q n ≤ 1)
    (hks : ∀ xs ys, 0 ≤ (S.ks_2samp xs ys).2 ∧ (S.ks_2samp xs ys).2 ≤ 1) :
    (∃ r q, d.detect_label_drift S old_data new_data
        = ({ d with label_drift := some r }, .ok r.drift_detected) ∧
      r.p_value = .fin q ∧ 0 ≤ q ∧ q ≤ 1 ∧ r.drift_detected = decide (q < d.threshold)) ∧
    (∃ r, d.detect_text_length_drift S old_data new_data
        = ({ d with text_length_drift := some r }, .ok r.drift_detected) ∧
      0 ≤ r.p_value ∧ r.p_value ≤ 1 ∧ r.drift_detected = decide (r.p_value < d.threshold)) := by
  constructor
  · have hsum : ((labelDistribution ns).map (fun kv => kv.2)).sum
        = ((labelDistribution os).map (fun kv => kv.2)).sum := by
      rw [sum_labelDistribution, sum_labelDistribution, hlen]
    have hlens : ((labelDistribution ns).map (fun kv => kv.2)).length
        = ((labelDistribution os).map (fun kv => kv.2)).length := by
      simp [labelDistribution, hkeys]
    have hfin : (chiStat ((labelDistribution ns).map (fun kv => kv.2))
        ((labelDistribution os).map (fun kv => kv.2))).isFin = true := by
      rw [chiStat, foldl_add_isFin]
      have hall : (((((labelDistribution ns).map (fun kv => kv.2)).zip
          ((labelDistribution os).map (fun kv => kv.2))).map
          (fun p => chiTerm p.1 p.2)).all FVal.isFin) = true := by
        rw [List.all_eq_true]
        intro x hx
        obtain ⟨p, hp, hpx⟩ := List.mem_map.mp hx
        have h2 := (List.of_mem_zip hp).2
        obtain ⟨kv, hkv, hkva⟩ := List.mem_map.mp h2
        subst hpx
        exact chiTerm_isFin p.1 p.2 (hkva ▸ hpos kv hkv)
      rw [hall]
      rfl
    obtain ⟨qs, hqs⟩ := (FVal.isFin_iff _).mp hfin
    have hch : chisquare S ((labelDistribution ns).map (fun kv => kv.2))
        ((labelDistribution os).map (fun kv => kv.2))
        = .ok (.fin qs, .fin (S.chi2_sf qs
            (((labelDistribution ns).map (fun kv => kv.2)).length - 1))) := by
      rw [chisquare_ok S _ _ hsum hlens, hqs]
      rfl
    have hout := labelOutcome_ok S d.threshold old_data new_data os ns hos hns _ _ hch
    exact ⟨_, S.chi2_sf qs (((labelDistribution ns).map (fun kv => kv.2)).length - 1),
      detect_label_ok S d old_data new_data _ hout, rfl, (hsf _ _).1, (hsf _ _).2, rfl⟩
  · have hout := textOutcome_ok S d.threshold old_data new_data orv nrv hor hnr hone htwo
    exact ⟨_, detect_text_ok S d old_data new_data _ hout, (hks _ _).1, (hks _ _).2, rfl⟩

/-- C2 witness: the statement instantiated with the concrete library
model and two concrete four-record data sets. -/
theorem detect_pvalues_in_unit_witness :
    (∃ r q, (DriftDetector.init (1 / 20)).detect_label_drift statsModel dfA dfB
        = ({ DriftDetector.init (1 / 20) with label_drift := some r }, .ok r.drift_detected) ∧
      r.p_value = .fin q ∧ 0 ≤ q ∧ q ≤ 1 ∧
      r.drift_detected = decide (q < (DriftDetector.init (1 / 20)).threshold)) ∧
    (∃ r, (DriftDetector.init (1 / 20)).detect_text_length_drift statsModel dfA dfB
        = ({ DriftDetector.init (1 / 20) with text_length_drift := some r }, .ok r.drift_detected) ∧
      0 ≤ r.p_value ∧ r.p_value ≤ 1 ∧
      r.drift_detected = decide (r.p_value < (DriftDetector.init (1 / 20)).threshold)) :=
  detect_pvalues_in_unit statsModel (DriftDetector.init (1 / 20)) dfA dfB
    [0, 0, 1, 2] [0, 1, 1, 2] ["a", "a", "a", "a"] ["a", "a", "a", "a"]
    rfl rfl rfl rfl (by decide) (by decide) (by decide) (by decide) (by decide)
    (fun q n => ⟨statsModel_sf_nonneg q n, statsModel_sf_le_one q n⟩)
    statsModel_ks_unit

/-- C1: whenever `check_drift` returns normally, both test results are
recorded and the returned boolean is the logical OR of the two per-test
drift booleans; the same boolean is stored as `overall_drift` and as the
detector's `drift_detected` attribute, and the timestamp is stamped at
aggregation time.  The OR aggregation holds for every combination of the
two per-test booleans; the witness exercises all four. -/
theorem check_drift_overall_or (S : Stats) (d : DriftDetector)
    (old_data new_data : DataFrame) (ts : String) (b : Bool)
    (h : (d.check_drift S old_data new_data ts).2 = .ok b) :
    ∃ rl rt,
      (d.check_drift S old_data new_data ts).1.label_drift = some rl ∧
      (d.check_drift S old_data new_data ts).1.text_length_drift = some rt ∧
      b = (rl.drift_detected || rt.drift_detected) ∧
      (d.check_drift S old_data new_data ts).1.overall_drift = some b ∧
      (d.check_drift S old_data new_data ts).1.drift_detected = b ∧
      (d.check_drift S old_data new_data ts).1.timestamp = some ts := by
  cases hl : labelOutcome S d.threshold old_data new_data with
  | error e =>
    rw [check_drift_label_error S d old_data new_data ts e hl] at h
    simp at h
  | ok rl =>
    cases ht : textOutcome S d.threshold old_data new_data with
    | error e =>
      rw [check_drift_text_error S d old_data new_data ts rl e hl ht] at h
      simp at h
    | ok rt =>
      have hcd := check_drift_ok_of S d old_data new_data ts rl rt hl ht
      rw [hcd] at h
      have hb := Except.ok.inj h
      subst hb
      rw [hcd]
      exact ⟨rl, rt, rfl, rfl, rfl, rfl, rfl, rfl⟩

/-- C1 witness: the four combinations of the two per-test booleans —
(false, false), (true, false), (false, true), (true, true) — each
yielding the OR as overall verdict. -/
theorem check_drift_overall_or_witness :
    (∃ rl rt,
      ((DriftDetector.init (1 / 2)).check_drift statsModel dfA dfA "t").1.label_drift = some rl ∧
      ((DriftDetector.init (1 / 2)).check_drift statsModel dfA dfA "t").1.text_length_drift = some rt ∧
      false = (rl.drift_detected || rt.drift_detected) ∧
      ((DriftDetector.init (1 / 2)).check_drift statsModel dfA dfA "t").1.overall_drift = some false ∧
      ((DriftDetector.init (1 / 2)).check_drift statsModel dfA dfA "t").1.drift_detected = false ∧
      ((DriftDetector.init (1 / 2)).check_drift statsModel dfA dfA "t").1.timestamp = some "t") ∧
    (∃ rl rt,
      ((DriftDetector.init (1 / 2)).check_drift statsModel dfA dfB "t").1.label_drift = some rl ∧
      ((DriftDetector.init (1 / 2)).check_drift statsModel dfA dfB "t").1.text_length_drift = some rt ∧
      true = (rl.drift_detected || rt.drift_detected) ∧
      ((DriftDetector.init (1 / 2)).check_drift statsModel dfA dfB "t").1.overall_drift = some true ∧
      ((DriftDetector.init (1 / 2)).check_drift statsModel dfA dfB "t").1.drift_detected = true ∧
      ((DriftDetector.init (1 / 2)).check_drift statsModel dfA dfB "t").1.timestamp = some "t") ∧
    (∃ rl rt,
      ((DriftDetector.init (1 / 2)).check_drift statsModel dfA dfC "t").1.label_drift = some rl ∧
      ((DriftDetector.init (1 / 2)).check_drift statsModel dfA dfC "t").1.text_length_drift = some rt ∧
      true = (rl.drift_detected || rt.drift_detected) ∧
      ((DriftDetector.init (1 / 2)).check_drift statsModel dfA dfC "t").1.overall_drift = some true ∧
      ((DriftDetector.init (1 / 2)).check_drift statsModel dfA dfC "t").1.drift_detected = true ∧
      ((DriftDetector.init (1 / 2)).check_drift statsModel dfA dfC "t").1.timestamp = some "t") ∧
    (∃ rl rt,
      ((DriftDetector.init (1 / 2)).check_drift statsModel dfA dfD "t").1.label_drift = some rl ∧
      ((DriftDetector.init (1 / 2)).check_drift statsModel dfA dfD "t").1.text_length_drift = some rt ∧
      true = (rl.drift_detected || rt.drift_detected) ∧
      ((DriftDetector.init (1 / 2)).check_drift statsModel dfA dfD "t").1.overall_drift = some true ∧
      ((DriftDetector.init (1 / 2)).check_drift statsModel dfA dfD "t").1.drift_detected = true ∧
      ((DriftDetector.init (1 / 2)).check_drift statsModel dfA dfD "t").1.timestamp = some "t") :=
  ⟨check_drift_overall_or statsModel (DriftDetector.init (1 / 2)) dfA dfA "t" false (by
      norm_num [DriftDetector.check_drift, DriftDetector.detect_label_drift,
        DriftDetector.detect_text_length_drift, labelOutcome, textOutcome, chisquare, chiStat,
        chiPValue, DriftDetector.init, dfA, labelDistribution, labelKeys, insertSorted,
        chiTerm, FVal.add, FVal.flt, statsModel, length_str_a]),
    check_drift_overall_or statsModel (DriftDetector.init (1 / 2)) dfA dfB "t" true (by
      norm_num [DriftDetector.check_drift, DriftDetector.detect_label_drift,
        DriftDetector.detect_text_length_drift, labelOutcome, textOutcome, chisquare, chiStat,
        chiPValue, DriftDetector.init, dfA, dfB, labelDistribution, labelKeys, insertSorted,
        chiTerm, FVal.add, FVal.flt, statsModel, length_str_a]),
    check_drift_overall_or statsModel (DriftDetector.init (1 / 2)) dfA dfC "t" true (by
      norm_num [DriftDetector.check_drift, DriftDetector.detect_label_drift,
        DriftDetector.detect_text_length_drift, labelOutcome, textOutcome, chisquare, chiStat,
        chiPValue, DriftDetector.init, dfA, dfC, labelDistribution, labelKeys, insertSorted,
        chiTerm, FVal.add, FVal.flt, statsModel, length_str_a, length_str_bb]),
    check_drift_overall_or statsModel (DriftDetector.init (1 / 2)) dfA dfD "t" true (by
      norm_num [DriftDetector.check_drift, DriftDetector.detect_label_drift,
        DriftDetector.detect_text_length_drift, labelOutcome, textOutcome, chisquare, chiStat,
        chiPValue, DriftDetector.init, dfA, dfD, labelDistribution, labelKeys, insertSorted,
        chiTerm, FVal.add, FVal.flt, statsModel, length_str_a, length_str_bb])⟩

/-- C3 (amended): whenever a test inside `check_drift` fails, the whole
call fails with the error surfaced to the caller, and no overall verdict
or timestamp is written (and `drift_detected` is untouched); but the
report is NOT left without a partial result: if the categorical test
succeeded before the text-length test failed, the `label_drift` entry
remains populated while `text_length_drift` stays empty. -/
theorem check_drift_error_no_overall (S : Stats) (d : DriftDetector)
    (old_data new_data : DataFrame) (ts : String) (e : DriftError)
    (h : (d.check_drift S old_data new_data ts).2 = .error e) :
    (d.check_drift S old_data new_data ts).1.overall_drift = d.overall_drift ∧
    (d.check_drift S old_data new_data ts).1.timestamp = d.timestamp ∧
    (d.check_drift S old_data new_data ts).1.drift_detected = d.drift_detected ∧
    (d.check_drift S old_data new_data ts).1.text_length_drift = d.text_length_drift ∧
    ((d.check_drift S old_data new_data ts).1 = d ∨
      ∃ r, labelOutcome S d.threshold old_data new_data = .ok r ∧
        (d.check_drift S old_data new_data ts).1 = { d with label_drift := some r }) := by
  cases hl : labelOutcome S d.threshold old_data new_data with
  | error e' =>
    rw [check_drift_label_error S d old_data new_data ts e' hl]
    exact ⟨rfl, rfl, rfl, rfl, Or.inl rfl⟩
  | ok rl =>
    cases ht : textOutcome S d.threshold old_data new_data with
    | error e' =>
      rw [check_drift_text_error S d old_data new_data ts rl e' hl ht]
      exact ⟨rfl, rfl, rfl, rfl, Or.inr ⟨rl, rfl, rfl⟩⟩
    | ok rt =>
      rw [check_drift_ok_of S d old_data new_data ts rl rt hl ht] at h
      simp at h

/-- C3 counterexample: on data with a `sentiment` column but no `review`
column, the categorical test succeeds and the text-length test then
raises; the failed `check_drift` leaves a partial report in which only
`label_drift` is populated — contradicting "never only one of the two
test results is populated". -/
theorem check_drift_partial_report_cex :
    ((DriftDetector.init (1 / 20)).check_drift statsModel dfSentOnly dfSentOnly "t").2
      = Except.error (.keyError "review") ∧
    (((DriftDetector.init (1 / 20)).check_drift statsModel dfSentOnly dfSentOnly "t").1.label_drift).isSome
      = true ∧
    ((DriftDetector.init (1 / 20)).check_drift statsModel dfSentOnly dfSentOnly "t").1.text_length_drift
      = none := by
  refine ⟨?_, ?_, ?_⟩ <;>
    norm_num [DriftDetector.check_drift, DriftDetector.detect_label_drift,
      DriftDetector.detect_text_length_drift, labelOutcome, textOutcome, chisquare, chiStat,
      chiPValue, DriftDetector.init, dfSentOnly, labelDistribution, labelKeys, insertSorted,
      chiTerm, FVal.add, FVal.flt, statsModel]

/-- C3 witness: the amended statement instantiated at the partial-report
input: the error surfaces, no overall verdict or timestamp is written,
and the state either is unchanged or holds exactly the label result. -/
theorem check_drift_error_no_overall_witness :
    ((DriftDetector.init (1 / 20)).check_drift statsModel dfSentOnly dfSentOnly "t").1.overall_drift
      = (DriftDetector.init (1 / 20)).overall_drift ∧
    ((DriftDetector.init (1 / 20)).check_drift statsModel dfSentOnly dfSentOnly "t").1.timestamp
      = (DriftDetector.init (1 / 20)).timestamp ∧
    ((DriftDetector.init (1 / 20)).check_drift statsModel dfSentOnly dfSentOnly "t").1.drift_detected
      = (DriftDetector.init (1 / 20)).drift_detected ∧
    ((DriftDetector.init (1 / 20)).check_drift statsModel dfSentOnly dfSentOnly "t").1.text_length_drift
      = (DriftDetector.init (1 / 20)).text_length_drift ∧
    (((DriftDetector.init (1 / 20)).check_drift statsModel dfSentOnly dfSentOnly "t").1
        = DriftDetector.init (1 / 20) ∨
      ∃ r, labelOutcome statsModel (DriftDetector.init (1 / 20)).threshold dfSentOnly dfSentOnly
          = .ok r ∧
        ((DriftDetector.init (1 / 20)).check_drift statsModel dfSentOnly dfSentOnly "t").1
          = { DriftDetector.init (1 / 20) with label_drift := some r }) :=
  check_drift_error_no_overall statsModel (DriftDetector.init (1 / 20)) dfSentOnly dfSentOnly
    "t" (.keyError "review") (by
      norm_num [DriftDetector.check_drift, DriftDetector.detect_label_drift,
        DriftDetector.detect_text_length_drift, labelOutcome, textOutcome, chisquare, chiStat,
        chiPValue, DriftDetector.init, dfSentOnly, labelDistribution, labelKeys, insertSorted,
        chiTerm, FVal.add, FVal.flt, statsModel])

/-- C8: `check_drift` is deterministic and overwrites its own report:
rerunning it on the state left by a first run, with the same inputs and
the (unchanged) threshold, returns the same result — the same boolean on
success, the same error on failure — and leaves bit-identical
`label_drift`, `text_length_drift`, `overall_drift` and `drift_detected`
fields; only the timestamp argument may differ. -/
theorem check_drift_deterministic_rerun (S : Stats) (d : DriftDetector)
    (old_data new_data : DataFrame) (ts ts' : String) :
    (((d.check_drift S old_data new_data ts).1.check_drift S old_data new_data ts').2
        = (d.check_drift S old_data new_data ts).2) ∧
    (((d.check_drift S old_data new_data ts).1.check_drift S old_data new_data ts').1.label_drift
        = (d.check_drift S old_data new_data ts).1.label_drift) ∧
    (((d.check_drift S old_data new_data ts).1.check_drift S old_data new_data ts').1.text_length_drift
        = (d.check_drift S old_data new_data ts).1.text_length_drift) ∧
    (((d.check_drift S old_data new_data ts).1.check_drift S old_data new_data ts').1.overall_drift
        = (d.check_drift S old_data new_data ts).1.overall_drift) ∧
    (((d.check_drift S old_data new_data ts).1.check_drift S old_data new_data ts').1.drift_detected
        = (d.check_drift S old_data new_data ts).1.drift_detected) := by
  cases hl : labelOutcome S d.threshold old_data new_data with
  | error e =>
    have h1 := check_drift_label_error S d old_data new_data ts e hl
    have h2 := check_drift_label_error S d old_data new_data ts' e hl
    simp [h1, h2]
  | ok rl =>
    cases ht : textOutcome S d.threshold old_data new_data with
    | error e =>
      have h1 := check_drift_text_error S d old_data new_data ts rl e hl ht
      have h2 := check_drift_text_error S { d with label_drift := some rl }
        old_data new_data ts' rl e hl ht
      simp [h1, h2]
    | ok rt =>
      have h1 := check_drift_ok_of S d old_data new_data ts rl rt hl ht
      have h2 := check_drift_ok_of S
        { d with
            label_drift := some rl
            text_length_drift := some rt
            drift_detected := rl.drift_detected || rt.drift_detected
            overall_drift := some (rl.drift_detected || rt.drift_detected)
            timestamp := some ts }
        old_data new_data ts' rl rt hl ht
      simp [h1, h2]
